import Mathlib

/-!
Verification of the event-notification core of `rmw_stub_cpp`.

This file gives a shallow embedding of the two stateful components of the
repository:

* `StubGuardCondition` (src/rmw_stub_cpp/include/rmw_stub_cpp/stub_guard_condition.hpp):
  a latch with a "has triggered" flag, a 64-bit unread counter and an optional
  registered listener callback.  Handler invocations are made observable by
  having each operation return, next to the successor state, the list of
  callback invocations it performed, in order.

* `rmw_context_impl_t` (src/rmw_stub_cpp/include/rmw_stub_cpp/stub_context_implementation.hpp
  and src/rmw_stub_cpp/src/rmw_stub.cpp): a reference count (`node_count`,
  a `size_t`) plus a shutdown flag, with `init` / `fini` / `rmw_shutdown` /
  `rmw_create_node` acting on it.

C++ pointers are modelled as `Option Nat` (with `none` for a null pointer);
unsigned 64-bit machine arithmetic is modelled on `Nat` with explicit
reduction modulo `2 ^ 64`.
-/

/-- The modulus of `uint64_t` / `size_t` arithmetic (64-bit platform). -/
def U64 : Nat := 2 ^ 64

/-- One synchronous invocation of a registered listener callback, as performed
by `listener_callback_(user_data_, { waitable_handle_, WAITABLE_EVENT })`.
We record the identity of the callback pointer and the two stored pointer
arguments; the event kind is the constant `WAITABLE_EVENT` and is omitted. -/
structure Invocation where
  callback : Nat
  user_data : Option Nat
  waitable_handle : Option Nat
deriving Repr, DecidableEq

/-- State of a `StubGuardCondition`
(src/rmw_stub_cpp/include/rmw_stub_cpp/stub_guard_condition.hpp, private
section).  The mutex only serializes the operations and has no sequential
content, so it is not part of the state. -/
structure StubGuardCondition where
  has_triggered_ : Bool := false
  listener_callback_ : Option Nat := none
  waitable_handle_ : Option Nat := none
  user_data_ : Option Nat := none
  unread_count_ : Nat := 0
deriving Repr, DecidableEq

/-- The freshly constructed latch: `StubGuardCondition()` leaves every field
at its in-class initializer (`false`, three null pointers, count 0). -/
def initGC : StubGuardCondition := {}

/-- `StubGuardCondition::trigger`: if a listener callback is set, invoke it
once with the stored user data and waitable handle; otherwise set
`has_triggered_` and increment `unread_count_` (a `uint64_t`, hence mod
`2 ^ 64`).  Returns the successor state and the invocations performed. -/
def trigger (s : StubGuardCondition) : StubGuardCondition × List Invocation :=
  match s.listener_callback_ with
  | some cb => (s, [⟨cb, s.user_data_, s.waitable_handle_⟩])
  | none =>
      ({ s with
          has_triggered_ := true
          unread_count_ := (s.unread_count_ + 1) % U64 }, [])

/-- `StubGuardCondition::has_triggered` (the poll): returns the current value
of `has_triggered_` and unconditionally replaces the flag by its negation. -/
def has_triggered (s : StubGuardCondition) : Bool × StubGuardCondition :=
  (s.has_triggered_, { s with has_triggered_ := !s.has_triggered_ })

/-- `StubGuardCondition::set_callback`: if all of `user_data`, `waitable_handle`
and `callback` are non-null, store the three pointers, then (when
`use_previous_events` is set) invoke the new callback once per unread event,
and finally reset `unread_count_` to 0.  If any of the three pointers is null,
clear all three stored pointers and return at once (the count reset is not
reached). -/
def set_callback (user_data : Option Nat) (callback : Option Nat)
    (waitable_handle : Option Nat) (use_previous_events : Bool)
    (s : StubGuardCondition) : StubGuardCondition × List Invocation :=
  match user_data, waitable_handle, callback with
  | some u, some w, some cb =>
      let log : List Invocation :=
        if use_previous_events then
          List.replicate s.unread_count_ ⟨cb, some u, some w⟩
        else []
      ({ s with
          user_data_ := some u
          listener_callback_ := some cb
          waitable_handle_ := some w
          unread_count_ := 0 }, log)
  | _, _, _ =>
      ({ s with
          user_data_ := none
          listener_callback_ := none
          waitable_handle_ := none }, [])

/-- Iterated `trigger`, discarding the invocation logs (used for states
reached by a sequence of `trigger()` calls). -/
def triggerN : Nat → StubGuardCondition → StubGuardCondition
  | 0, s => s
  | n + 1, s => triggerN n (trigger s).1

/-- Return codes used by the modelled fragment of `rmw_stub.cpp`. -/
inductive RmwRet
  | ok
  | error
  | invalidArgument
deriving Repr, DecidableEq

/-- State of `rmw_context_impl_t`
(src/rmw_stub_cpp/include/rmw_stub_cpp/stub_context_implementation.hpp):
the participant reference count `node_count` (a `size_t`, 64-bit) and the
shutdown flag.  The two opaque pointers `common` / `participant_info` are
never read or written by the code under src/ and are omitted; the
`initialization_mutex` only serializes `init` / `fini`. -/
structure RmwContextImpl where
  node_count : Nat := 0
  is_shutdown : Bool := false
deriving Repr, DecidableEq

/-- A freshly constructed `rmw_context_impl_t` (as made by `rmw_init`):
`node_count` 0, `is_shutdown` false. -/
def initCtx : RmwContextImpl := {}

/-- `rmw_context_impl_t::init` (src/rmw_stub_cpp/src/rmw_stub.cpp): if
`node_count != 0`, initialization was already done and the count is merely
incremented; otherwise the count is incremented along the first-acquire path
(the place the header comment reserves for initializing the participant).
Returns the code's return value, the successor state, and whether the
first-acquire path was taken. -/
def rmw_context_impl_init (s : RmwContextImpl) : RmwRet × RmwContextImpl × Bool :=
  if s.node_count ≠ 0 then
    (RmwRet.ok, { s with node_count := (s.node_count + 1) % U64 }, false)
  else
    (RmwRet.ok, { s with node_count := (s.node_count + 1) % U64 }, true)

/-- Wrap-around decrement of a `size_t` (the C++ prefix `--` on an unsigned
64-bit value): 0 wraps to `2^64 - 1`, any other representable value is
decremented by one.  `decSizeT_eq_mod` below proves this agrees with the
canonical modular form `(x + (2^64 - 1)) % 2^64` on every representable
value. -/
def decSizeT (x : Nat) : Nat :=
  if x = 0 then U64 - 1 else x - 1

/-- `rmw_context_impl_t::fini` (src/rmw_stub_cpp/src/rmw_stub.cpp): decrement
`node_count` (a `size_t`, so wrapping at 0); if the decremented count is
non-zero, return along the "destruction shouldn't happen yet" path, otherwise
along the last-release path (the place the header comment reserves for
destroying the participant).  Returns the code's return value, the successor
state, and whether the last-release path was taken. -/
def rmw_context_impl_fini (s : RmwContextImpl) : RmwRet × RmwContextImpl × Bool :=
  let c := decSizeT s.node_count
  if c ≠ 0 then
    (RmwRet.ok, { s with node_count := c }, false)
  else
    (RmwRet.ok, { s with node_count := c }, true)

/-- `rmw_shutdown` (src/rmw_stub_cpp/src/rmw_stub.cpp), after its argument
checks pass on a valid context: sets `impl->is_shutdown = true` and returns
`RMW_RET_OK`. -/
def rmw_shutdown (s : RmwContextImpl) : RmwRet × RmwContextImpl :=
  (RmwRet.ok, { s with is_shutdown := true })

/-- `rmw_create_node` (src/rmw_stub_cpp/src/rmw_stub.cpp), acting on the
context-impl state once the null/identifier checks on its arguments pass.
The outcomes of the external validators `rmw_validate_node_name` /
`rmw_validate_namespace` are passed in as the booleans `nameValid` /
`namespaceValid`.  The shutdown flag is consulted first; any failure returns
`none` (the C++ `nullptr`) with the state untouched.  On success the node is
built after `impl->init` incremented the count — but the `finalize_context`
scope exit armed right after `init` is never cancelled, so `impl->fini()`
runs on every successful return as well, decrementing the count back. -/
def rmw_create_node (nameValid namespaceValid : Bool) (s : RmwContextImpl) :
    Option Unit × RmwContextImpl :=
  if s.is_shutdown then (none, s)
  else if !nameValid then (none, s)
  else if !namespaceValid then (none, s)
  else
    let r := rmw_context_impl_init s
    if r.1 ≠ RmwRet.ok then (none, r.2.1)
    else (some (), (rmw_context_impl_fini r.2.1).2.1)

/-- The operations of `rmw_stub.cpp` that act on an existing
`rmw_context_impl_t` (used to state that none of them ever clears the
shutdown flag). -/
inductive CtxOp
  | opInit
  | opFini
  | opShutdown
  | opCreateNode (nameValid namespaceValid : Bool)
deriving Repr, DecidableEq

/-- Effect of a `CtxOp` on the context-impl state. -/
def applyCtxOp : CtxOp → RmwContextImpl → RmwContextImpl
  | CtxOp.opInit, s => (rmw_context_impl_init s).2.1
  | CtxOp.opFini, s => (rmw_context_impl_fini s).2.1
  | CtxOp.opShutdown, s => (rmw_shutdown s).2
  | CtxOp.opCreateNode nv sv, s => (rmw_create_node nv sv s).2

/-- `n` successive `rmw_context_impl_t::init` calls; returns the final state
and how many of the calls took the first-acquire path. -/
def acquireN : Nat → RmwContextImpl → RmwContextImpl × Nat
  | 0, s => (s, 0)
  | n + 1, s =>
      let r := rmw_context_impl_init s
      let rest := acquireN n r.2.1
      (rest.1, (if r.2.2 then 1 else 0) + rest.2)

/-- `n` successive `rmw_context_impl_t::fini` calls; returns the final state
and how many of the calls took the last-release path. -/
def releaseN : Nat → RmwContextImpl → RmwContextImpl × Nat
  | 0, s => (s, 0)
  | n + 1, s =>
      let r := rmw_context_impl_fini s
      let rest := releaseN n r.2.1
      (rest.1, (if r.2.2 then 1 else 0) + rest.2)

theorem triggerN_callback_none (n : Nat) (s : StubGuardCondition)
    (h : s.listener_callback_ = none) :
    (triggerN n s).listener_callback_ = none := by
  induction n generalizing s with
  | zero => exact h
  | succ n ih =>
      simp only [triggerN]
      exact ih _ (by simp [trigger, h])

theorem triggerN_buffered (n : Nat) (s : StubGuardCondition)
    (h : s.listener_callback_ = none) (hc : s.unread_count_ < U64) :
    triggerN n s =
      { s with
          has_triggered_ := s.has_triggered_ || decide (0 < n)
          unread_count_ := (s.unread_count_ + n) % U64 } := by
  induction n generalizing s with
  | zero =>
      simp only [triggerN, Nat.add_zero, Nat.mod_eq_of_lt hc]
      simp
  | succ n ih =>
      simp only [triggerN, trigger, h]
      rw [ih _ (by simp) (Nat.mod_lt _ (by decide))]
      have hmod : ((s.unread_count_ + 1) % U64 + n) % U64
          = (s.unread_count_ + (n + 1)) % U64 := by
        rw [Nat.mod_add_mod]; congr 1; omega
      simp [hmod]

theorem decSizeT_eq_mod (x : Nat) (h : x < U64) :
    decSizeT x = (x + (U64 - 1)) % U64 := by
  unfold decSizeT
  by_cases h0 : x = 0
  · subst h0
    decide
  · rw [if_neg h0]
    have hx : x + (U64 - 1) = (x - 1) + U64 := by
      have : 1 ≤ U64 := by decide
      omega
    rw [hx, Nat.add_mod_right, Nat.mod_eq_of_lt (by omega)]

/-- Equation for `set_callback` when any of the three required pointers is
null: it clears all three stored pointers, performs no invocation, and leaves
the rest of the state (in particular `has_triggered_` and `unread_count_`)
untouched, since it returns before the count reset. -/
theorem set_callback_null_eq (s : StubGuardCondition)
    (u cb w : Option Nat) (b : Bool)
    (h : u = none ∨ cb = none ∨ w = none) :
    set_callback u cb w b s
      = ({ s with
            user_data_ := none
            listener_callback_ := none
            waitable_handle_ := none }, []) := by
  cases u <;> cases cb <;> cases w <;> first | rfl | simp at h

/-- C1: a single `trigger()` call results either in exactly one invocation of
the registered handler (when one is registered: performed synchronously, the
whole latch state — in particular the buffered counters — left unchanged) or
in exactly one increment (mod `2^64`) of the pending count together with
setting the has-triggered flag (when no handler is registered); never both
effects, never neither, and `trigger` is total (no error outcome). -/
theorem trigger_one_effect (s : StubGuardCondition) :
    match s.listener_callback_ with
    | some cb =>
        (trigger s).2 = [⟨cb, s.user_data_, s.waitable_handle_⟩] ∧
        (trigger s).1 = s
    | none =>
        (trigger s).2 = [] ∧
        (trigger s).1.has_triggered_ = true ∧
        (trigger s).1.unread_count_ = (s.unread_count_ + 1) % U64 ∧
        (trigger s).1.listener_callback_ = s.listener_callback_ ∧
        (trigger s).1.user_data_ = s.user_data_ ∧
        (trigger s).1.waitable_handle_ = s.waitable_handle_ := by
  cases h : s.listener_callback_ <;> simp [trigger, h]

/-- C2: `has_triggered` (the poll) returns the current has-triggered boolean
and unconditionally flips it, so two consecutive polls with no intervening
trigger return alternating values on every state; and on any state reached
from the fresh latch by `n ≥ 1` `trigger()` calls with no registered handler,
the two polls return `true` then `false`. -/
theorem pollAndReset_toggle :
    (∀ s : StubGuardCondition,
        (has_triggered s).1 = s.has_triggered_ ∧
        (has_triggered s).2.has_triggered_ = !s.has_triggered_ ∧
        (has_triggered (has_triggered s).2).1 = !(has_triggered s).1) ∧
    (∀ n : Nat, 1 ≤ n →
        (has_triggered (triggerN n initGC)).1 = true ∧
        (has_triggered (has_triggered (triggerN n initGC)).2).1 = false) := by
  constructor
  · intro s
    exact ⟨rfl, rfl, rfl⟩
  · intro n hn
    rw [triggerN_buffered n initGC rfl (by decide)]
    constructor <;> simp [has_triggered, initGC] <;> omega

/-- Witness for `pollAndReset_toggle` at `n = 3`. -/
theorem pollAndReset_toggle_witness :
    (has_triggered (triggerN 3 initGC)).1 = true ∧
    (has_triggered (has_triggered (triggerN 3 initGC)).2).1 = false :=
  pollAndReset_toggle.2 3 (by decide)

/-- C5 counterexample: from the fresh latch, after three `trigger()` calls
with no handler, the three consecutive polls do NOT return
true, false, false (the third poll returns true, because the poll flips the
flag unconditionally). -/
theorem three_polls_cex :
    ¬ ((has_triggered (triggerN 3 initGC)).1 = true ∧
       (has_triggered (has_triggered (triggerN 3 initGC)).2).1 = false ∧
       (has_triggered (has_triggered (has_triggered
          (triggerN 3 initGC)).2).2).1 = false) := by
  decide

/-- C5 amended: from the fresh latch, after three `trigger()` calls with no
handler, three consecutive `poll_and_reset()` calls return true, then false,
then true. -/
theorem three_polls_amended :
    (has_triggered (triggerN 3 initGC)).1 = true ∧
    (has_triggered (has_triggered (triggerN 3 initGC)).2).1 = false ∧
    (has_triggered (has_triggered (has_triggered
       (triggerN 3 initGC)).2).2).1 = true := by
  decide

/-- C3: registering a handler with all three pointers non-null and
`use_previous_events = true` while `N > 0` triggers are buffered invokes the
new handler exactly `N` times during the registration call itself (one
invocation per buffered trigger, each carrying the new pointers), and the
pending count is 0 when the call returns. -/
theorem set_callback_replays_backlog (s : StubGuardCondition) (u cb w : Nat)
    (h : 0 < s.unread_count_) :
    (set_callback (some u) (some cb) (some w) true s).2
      = List.replicate s.unread_count_ ⟨cb, some u, some w⟩ ∧
    (set_callback (some u) (some cb) (some w) true s).2.length
      = s.unread_count_ ∧
    (set_callback (some u) (some cb) (some w) true s).1
      = { s with
          user_data_ := some u
          listener_callback_ := some cb
          waitable_handle_ := some w
          unread_count_ := 0 } := by
  refine ⟨rfl, ?_, rfl⟩
  simp [set_callback]

/-- Witness for `set_callback_replays_backlog`: two buffered triggers are
replayed as two invocations, and the count ends at 0. -/
theorem set_callback_replays_backlog_witness :
    0 < (triggerN 2 initGC).unread_count_ ∧
    (set_callback (some 1) (some 2) (some 3) true (triggerN 2 initGC)).2.length
      = (triggerN 2 initGC).unread_count_ ∧
    (set_callback (some 1) (some 2) (some 3) true
       (triggerN 2 initGC)).1.unread_count_ = 0 :=
  ⟨by decide,
   (set_callback_replays_backlog (triggerN 2 initGC) 1 2 3 (by decide)).2.1,
   by rw [(set_callback_replays_backlog (triggerN 2 initGC) 1 2 3 (by decide)).2.2]⟩

/-- C6: a `set_callback` call with any of the three required pointers null is
not an error: it clears all three stored pointers (back to the Unattended
state), and every subsequent `trigger()` (after any number of further
triggers) performs no invocation and instead increments the pending count and
sets the has-triggered flag. -/
theorem set_callback_null_unattended (s : StubGuardCondition)
    (u cb w : Option Nat) (b : Bool)
    (h : u = none ∨ cb = none ∨ w = none) :
    (set_callback u cb w b s).1.user_data_ = none ∧
    (set_callback u cb w b s).1.listener_callback_ = none ∧
    (set_callback u cb w b s).1.waitable_handle_ = none ∧
    ∀ n : Nat,
      (trigger (triggerN n (set_callback u cb w b s).1)).2 = [] ∧
      (trigger (triggerN n (set_callback u cb w b s).1)).1.unread_count_
        = ((triggerN n (set_callback u cb w b s).1).unread_count_ + 1) % U64 ∧
      (trigger (triggerN n (set_callback u cb w b s).1)).1.has_triggered_
        = true := by
  rw [set_callback_null_eq s u cb w b h]
  refine ⟨rfl, rfl, rfl, fun n => ?_⟩
  have hnone := triggerN_callback_none n
    { s with
        user_data_ := none
        listener_callback_ := none
        waitable_handle_ := none } rfl
  simp [trigger, hnone]

/-- Witness for `set_callback_null_unattended`: unregistering with a null
user-data pointer after one buffered trigger. -/
theorem set_callback_null_unattended_witness :
    ((none : Option Nat) = none ∨ (some 5 : Option Nat) = none
       ∨ (some 7 : Option Nat) = none) ∧
    (set_callback none (some 5) (some 7) true
       (triggerN 1 initGC)).1.listener_callback_ = none ∧
    (trigger (triggerN 0 (set_callback none (some 5) (some 7) true
       (triggerN 1 initGC)).1)).2 = [] :=
  ⟨Or.inl rfl,
   (set_callback_null_unattended (triggerN 1 initGC) none (some 5) (some 7)
      true (Or.inl rfl)).2.1,
   ((set_callback_null_unattended (triggerN 1 initGC) none (some 5) (some 7)
      true (Or.inl rfl)).2.2.2 0).1⟩

/-- C7: a `set_callback` call that installs a valid handler (all three
pointers non-null) leaves the pending count at 0 when it returns, for every
prior latch state and every value of `use_previous_events`. -/
theorem set_callback_clears_backlog (s : StubGuardCondition) (u cb w : Nat)
    (b : Bool) :
    (set_callback (some u) (some cb) (some w) b s).1.unread_count_ = 0 := by
  simp [set_callback]

/-- C10: an unregistering `set_callback` call (any required pointer null)
leaves both the pending count and the has-triggered flag unchanged: a poll
right after it still returns the old flag, and a later valid registration
with `use_previous_events = true` still replays exactly the triggers that
were buffered before the unregister. -/
theorem set_callback_null_frame (s : StubGuardCondition)
    (u cb w : Option Nat) (b : Bool)
    (h : u = none ∨ cb = none ∨ w = none) (u2 cb2 w2 : Nat) :
    (set_callback u cb w b s).1.unread_count_ = s.unread_count_ ∧
    (set_callback u cb w b s).1.has_triggered_ = s.has_triggered_ ∧
    (has_triggered (set_callback u cb w b s).1).1 = s.has_triggered_ ∧
    (set_callback (some u2) (some cb2) (some w2) true
       (set_callback u cb w b s).1).2
      = List.replicate s.unread_count_ ⟨cb2, some u2, some w2⟩ := by
  rw [set_callback_null_eq s u cb w b h]
  exact ⟨rfl, rfl, rfl, rfl⟩

/-- Witness for `set_callback_null_frame`: after two buffered triggers, an
unregister with a null callback pointer preserves the count 2 and flag, and a
later replaying registration delivers the two buffered triggers. -/
theorem set_callback_null_frame_witness :
    ((some 4 : Option Nat) = none ∨ (none : Option Nat) = none
       ∨ (some 6 : Option Nat) = none) ∧
    (set_callback (some 4) none (some 6) false
       (triggerN 2 initGC)).1.unread_count_ = (triggerN 2 initGC).unread_count_ ∧
    (set_callback (some 1) (some 2) (some 3) true
       (set_callback (some 4) none (some 6) false (triggerN 2 initGC)).1).2
      = List.replicate (triggerN 2 initGC).unread_count_ ⟨2, some 1, some 3⟩ :=
  ⟨Or.inr (Or.inl rfl),
   (set_callback_null_frame (triggerN 2 initGC) (some 4) none (some 6) false
      (Or.inr (Or.inl rfl)) 1 2 3).1,
   (set_callback_null_frame (triggerN 2 initGC) (some 4) none (some 6) false
      (Or.inr (Or.inl rfl)) 1 2 3).2.2.2⟩

/-- C4 counterexample: calling `rmw_context_impl_t::fini` on a context whose
`node_count` is already 0 returns `RMW_RET_OK` (no logic error is reported)
and leaves `node_count` non-zero (it wraps to `2^64 - 1`), so the claim that
an unbalanced release fails with a reported error and leaves the count
uncorrupted is false. -/
theorem fini_at_zero_cex :
    (rmw_context_impl_fini ⟨0, false⟩).1 = RmwRet.ok ∧
    (rmw_context_impl_fini ⟨0, false⟩).2.1.node_count ≠ 0 := by
  decide

/-- C4 amended: calling `rmw_context_impl_t::fini` when `node_count` is
already 0 returns `RMW_RET_OK` without reporting any error, wraps
`node_count` around to `2^64 - 1` (the `size_t` decrement underflows), and
does not take the last-release (destruction) path, so nothing is destroyed
twice. -/
theorem fini_at_zero_amended (b : Bool) :
    rmw_context_impl_fini ⟨0, b⟩ = (RmwRet.ok, ⟨U64 - 1, b⟩, false) := by
  cases b <;> decide

/-- `rmw_context_impl_t::init` never changes the shutdown flag. -/
theorem rmw_context_impl_init_shutdown_eq (s : RmwContextImpl) :
    (rmw_context_impl_init s).2.1.is_shutdown = s.is_shutdown := by
  unfold rmw_context_impl_init
  split <;> rfl

/-- `rmw_context_impl_t::fini` never changes the shutdown flag. -/
theorem rmw_context_impl_fini_shutdown_eq (s : RmwContextImpl) :
    (rmw_context_impl_fini s).2.1.is_shutdown = s.is_shutdown := by
  simp only [rmw_context_impl_fini]
  generalize decSizeT s.node_count = c
  split <;> rfl

/-- On a shut-down context, `rmw_create_node` returns null and leaves the
state untouched. -/
theorem rmw_create_node_shutdown (nv sv : Bool) (s : RmwContextImpl)
    (h : s.is_shutdown = true) : rmw_create_node nv sv s = (none, s) := by
  simp [rmw_create_node, h]

/-- C8: `rmw_shutdown` returns `RMW_RET_OK`, sets the shutdown flag, is
idempotent and does not change `node_count`; no modelled operation on the
context impl ever clears the shutdown flag once it is set; and once the flag
is set, every `rmw_create_node` call returns null (regardless of the name and
namespace validation outcomes) with the context state unchanged. -/
theorem shutdown_one_way :
    (∀ s : RmwContextImpl,
        (rmw_shutdown s).1 = RmwRet.ok ∧
        (rmw_shutdown s).2.is_shutdown = true ∧
        (rmw_shutdown s).2.node_count = s.node_count ∧
        rmw_shutdown (rmw_shutdown s).2 = rmw_shutdown s) ∧
    (∀ (op : CtxOp) (s : RmwContextImpl), s.is_shutdown = true →
        (applyCtxOp op s).is_shutdown = true) ∧
    (∀ (nv sv : Bool) (s : RmwContextImpl), s.is_shutdown = true →
        rmw_create_node nv sv s = (none, s)) := by
  refine ⟨fun s => ⟨rfl, rfl, rfl, rfl⟩, ?_, fun nv sv s h => rmw_create_node_shutdown nv sv s h⟩
  intro op s h
  cases op with
  | opInit =>
      simp only [applyCtxOp, rmw_context_impl_init_shutdown_eq]
      exact h
  | opFini =>
      simp only [applyCtxOp, rmw_context_impl_fini_shutdown_eq]
      exact h
  | opShutdown => rfl
  | opCreateNode nv sv =>
      simp only [applyCtxOp, rmw_create_node_shutdown nv sv s h]
      exact h

/-- Witness for `shutdown_one_way`: concrete instances of its three parts. -/
theorem shutdown_one_way_witness :
    (rmw_shutdown initCtx).2.is_shutdown = true ∧
    (applyCtxOp CtxOp.opFini ⟨3, true⟩).is_shutdown = true ∧
    rmw_create_node true true ⟨0, true⟩ = (none, ⟨0, true⟩) :=
  ⟨(shutdown_one_way.1 initCtx).2.1,
   shutdown_one_way.2.1 CtxOp.opFini ⟨3, true⟩ rfl,
   shutdown_one_way.2.2 true true ⟨0, true⟩ rfl⟩

/-- `rmw_context_impl_t::init` on a zero count takes the first-acquire path
and sets the count to 1. -/
theorem init_step_zero (b : Bool) :
    rmw_context_impl_init ⟨0, b⟩ = (RmwRet.ok, ⟨1, b⟩, true) := by
  cases b <;> decide

/-- `rmw_context_impl_t::init` on a positive count below the `size_t` bound
merely increments the count. -/
theorem init_step_pos (c : Nat) (b : Bool) (hc : 1 ≤ c) (h : c + 1 < U64) :
    rmw_context_impl_init ⟨c, b⟩ = (RmwRet.ok, ⟨c + 1, b⟩, false) := by
  simp only [rmw_context_impl_init]
  rw [if_pos (show ¬ c = 0 by omega)]
  rw [Nat.mod_eq_of_lt h]

/-- `rmw_context_impl_t::fini` on count 1 takes the last-release path and
sets the count to 0. -/
theorem fini_step_one (b : Bool) :
    rmw_context_impl_fini ⟨1, b⟩ = (RmwRet.ok, ⟨0, b⟩, true) := by
  cases b <;> decide

/-- `rmw_context_impl_t::fini` on a count of at least 2 merely decrements the
count, not taking the last-release path. -/
theorem fini_step_big (c : Nat) (b : Bool) (h : 2 ≤ c) :
    rmw_context_impl_fini ⟨c, b⟩ = (RmwRet.ok, ⟨c - 1, b⟩, false) := by
  simp only [rmw_context_impl_fini, decSizeT]
  rw [if_neg (show ¬ c = 0 by omega)]
  rw [if_pos (show c - 1 ≠ 0 by omega)]

/-- Runs of `init` from a positive count below the bound never take the
first-acquire path and add up in the count. -/
theorem acquireN_from_pos (n : Nat) :
    ∀ (c : Nat) (b : Bool), 1 ≤ c → c + n < U64 →
      acquireN n ⟨c, b⟩ = (⟨c + n, b⟩, 0) := by
  induction n with
  | zero =>
      intro c b hc h
      simp [acquireN]
  | succ n ih =>
      intro c b hc h
      simp only [acquireN, init_step_pos c b hc (by omega)]
      rw [ih (c + 1) b (by omega) (by omega)]
      have hadd : c + 1 + n = c + (n + 1) := by omega
      rw [hadd]
      simp

/-- One-step unfolding of `releaseN`. -/
theorem releaseN_succ (n : Nat) (s : RmwContextImpl) :
    releaseN (n + 1) s =
      ((releaseN n (rmw_context_impl_fini s).2.1).1,
       (if (rmw_context_impl_fini s).2.2 then 1 else 0)
         + (releaseN n (rmw_context_impl_fini s).2.1).2) := rfl

/-- Exactly `c + 1` runs of `fini` from count `c + 1` take the last-release
path exactly once (at the very last call) and end at count 0. -/
theorem releaseN_full (c : Nat) (b : Bool) :
    releaseN (c + 1) ⟨c + 1, b⟩ = (⟨0, b⟩, 1) := by
  induction c with
  | zero => cases b <;> decide
  | succ n ih =>
      rw [releaseN_succ, fini_step_big (n + 1 + 1) b (by omega)]
      dsimp only
      rw [Nat.add_sub_cancel, ih]
      simp

/-- The node count after `n` runs of `init` is the initial count plus `n`,
modulo `2 ^ 64`. -/
theorem acquireN_count (n : Nat) :
    ∀ s : RmwContextImpl, s.node_count < U64 →
      (acquireN n s).1.node_count = (s.node_count + n) % U64 := by
  induction n with
  | zero =>
      intro s hc
      simp [acquireN, Nat.mod_eq_of_lt hc]
  | succ n ih =>
      intro s hc
      have h1 : (rmw_context_impl_init s).2.1.node_count
          = (s.node_count + 1) % U64 := by
        simp only [rmw_context_impl_init]
        split <;> rfl
      simp only [acquireN]
      rw [ih _ (by rw [h1]; exact Nat.mod_lt _ (by decide)), h1]
      rw [Nat.mod_add_mod]
      congr 1
      omega

/-- C9 amended: for every `M` with `1 ≤ M < 2^64`, `init` and `fini` always
return `RMW_RET_OK` (every acquire and release succeeds); `M` successive
`init` calls on a fresh context take the first-acquire (participant
initialization) path exactly once and end with `node_count = M`; and `M`
subsequent `fini` calls take the last-release (participant destruction) path
exactly once and end with `node_count = 0`. -/
theorem acquire_release_balanced (M : Nat) (h1 : 1 ≤ M) (h2 : M < U64) :
    (∀ s : RmwContextImpl, (rmw_context_impl_init s).1 = RmwRet.ok) ∧
    (∀ s : RmwContextImpl, (rmw_context_impl_fini s).1 = RmwRet.ok) ∧
    acquireN M initCtx = (⟨M, false⟩, 1) ∧
    releaseN M (acquireN M initCtx).1 = (⟨0, false⟩, 1) := by
  obtain ⟨n, rfl⟩ : ∃ n, M = n + 1 := ⟨M - 1, by omega⟩
  have hacq : acquireN (n + 1) initCtx = (⟨n + 1, false⟩, 1) := by
    show acquireN (n + 1) ⟨0, false⟩ = _
    simp only [acquireN, init_step_zero]
    rw [acquireN_from_pos n 1 false (by omega) (by omega)]
    have hadd : 1 + n = n + 1 := by omega
    rw [hadd]
    simp
  refine ⟨?_, ?_, hacq, ?_⟩
  · intro s
    simp only [rmw_context_impl_init]
    split <;> rfl
  · intro s
    simp only [rmw_context_impl_fini]
    generalize decSizeT s.node_count = c
    split <;> rfl
  · rw [hacq]
    exact releaseN_full n false

/-- Witness for `acquire_release_balanced` at `M = 2`. -/
theorem acquire_release_balanced_witness :
    (1 ≤ 2 ∧ 2 < U64) ∧
    acquireN 2 initCtx = (⟨2, false⟩, 1) ∧
    releaseN 2 (acquireN 2 initCtx).1 = (⟨0, false⟩, 1) :=
  ⟨⟨by decide, by decide⟩,
   (acquire_release_balanced 2 (by decide) (by decide)).2.2.1,
   (acquire_release_balanced 2 (by decide) (by decide)).2.2.2⟩

/-- C9 counterexample: at `M = 2^64 + 1` the claim fails on the code, because
`node_count` is a `size_t` and wraps: after `M` successive `init` calls on a
fresh context the count is `1`, not `M` (and the first-acquire path was taken
twice, not once). -/
theorem acquire_release_cex :
    ¬ ((acquireN (U64 + 1) initCtx).2 = 1 ∧
       (acquireN (U64 + 1) initCtx).1.node_count = U64 + 1) := by
  intro hcl
  have h := acquireN_count (U64 + 1) initCtx (by decide)
  rw [hcl.2] at h
  have he : (initCtx.node_count + (U64 + 1)) % U64 = 1 := by decide
  rw [he] at h
  exact absurd h (by decide)
